/-
Verification of the librelay message-receiver pipeline
(src/src/websocket-resources.js) against its natural-language
specification.  Every definition below is a shallow embedding of the
corresponding JavaScript function; external collaborators (the session
cipher, protobuf codecs, the storage module, the relay HTTP API) appear
as function-valued parameters collected in the `Ctx` structure.
Promises are modelled as settled `Except` values paired with the list of
events dispatched along the way; timers are modelled as absolute
deadlines with an explicit scheduler.
-/
import Mathlib

namespace LibRelay

/-- Byte strings are lists of naturals (each byte is < 256 on real inputs). -/
abbrev Bytes := List Nat

/-! ### unpad (MessageReceiver.unpad, lines 340-362)

The source walks the input from the last index downwards: a 0x80 byte
ends the scan and yields the prefix before it, a non-zero byte raises
Error("Invalid padding"), and 0x00 bytes are skipped.  If the loop
falls off the front of the array (empty or all-zero input) the local
variable `plaintext` is still `undefined` and the function returns it
without raising; `Except.ok none` models that returned `undefined`. -/

/-- Tail-first scan of `unpad`, written on the reversed byte list: the head
of the argument is the last byte of the original input. -/
def unpadScan : Bytes → Except String (Option Bytes)
  | [] => .ok none
  | b :: rest =>
    if b = 0x80 then .ok (some rest.reverse)
    else if b = 0x00 then unpadScan rest
    else .error "Invalid padding"

/-- MessageReceiver.unpad: scan from the tail; `ok (some p)` is a returned
prefix, `ok none` is a returned `undefined`, `error` is a thrown
Error("Invalid padding"). -/
def unpad (paddedPlaintext : Bytes) : Except String (Option Bytes) :=
  unpadScan paddedPlaintext.reverse

/-! ### Outgoing request id allocation (class Request, lines 16-34)

The constructor allocates `ints = new Uint32Array(2)` and then calls
`ints.set(crypto.randomBytes(ints.length))`: `ints.length` is the element
count 2, so only two random bytes are drawn, and `ints.set` stores each
byte (coerced with ToUint32, i.e. mod 2^32) into one 32-bit slot.  The id
is `new Long(ints[0], ints[1], unsigned) = ints[0] + ints[1] * 2^32`. -/

/-- ToUint32 coercion applied by `Uint32Array.prototype.set` to each
element of the source array. -/
def toUint32 (n : Nat) : Nat := n % 2 ^ 32

/-- Value of `new Long(ints[0], ints[1], true)` after
`ints.set(bytes)` on a zero-initialised `Uint32Array(2)`. -/
def newRequestIdFromBytes (bytes : Bytes) : Nat :=
  toUint32 (bytes.getD 0 0) + toUint32 (bytes.getD 1 0) * 2 ^ 32

/-- Id assigned to an outgoing request created without a caller-supplied
id: `randomBytes` models `crypto.randomBytes`, and the source asks it for
`ints.length = 2` bytes. -/
def newRequestId (randomBytes : Nat → Bytes) : Nat :=
  newRequestIdFromBytes (randomBytes 2)

/-! ### WebSocketResource close and the pending-request table
(lines 109-172) -/

/-- A pending outgoing request: its id and whether success/error
callbacks were supplied. -/
structure PendingRequest where
  id : Nat
  hasSuccess : Bool
  hasError : Bool
deriving DecidableEq, Repr

/-- The readyState constant `WebSocket.CLOSED`. -/
def WS_CLOSED : Nat := 3

/-- State owned by a WebSocketResource: the socket (its readyState, or
`none` when `this.socket` is null) and the `_outgoingRequests` map. -/
structure WSRState where
  socketReadyState : Option Nat
  outgoingRequests : List (Nat × PendingRequest)
deriving DecidableEq, Repr

/-- A request callback invocation observable by a caller. -/
inductive WSRCallback
  | success (id : Nat)
  | failure (id : Nat)
deriving DecidableEq, Repr

/-- WebSocketResource.close (lines 157-165): if a non-closed socket
exists, send a close frame (JS `!code` coerces both `undefined` and `0`
to 3000) and null the socket.  The returned triple is (new state, close
frames sent, request callbacks invoked); the source never touches
`_outgoingRequests` here and invokes no callbacks. -/
def wsrClose (s : WSRState) (code : Option Nat) (reason : String) :
    WSRState × List (Nat × String) × List WSRCallback :=
  match s.socketReadyState with
  | some rs =>
    if rs = WS_CLOSED then
      ({ s with socketReadyState := none }, [], [])
    else
      let c := match code with
        | none => 3000
        | some 0 => 3000
        | some c => c
      ({ s with socketReadyState := none }, [(c, reason)], [])
  | none => ({ s with socketReadyState := none }, [], [])

/-- WebSocketResource.sendRequest (lines 167-172): insert the request
into the pending table keyed by its id (Map.set replaces an existing
entry). -/
def wsrSendRequest (s : WSRState) (req : PendingRequest) : WSRState :=
  { s with outgoingRequests :=
      (s.outgoingRequests.filter (fun kv => kv.1 ≠ req.id)) ++ [(req.id, req)] }

/-! ### KeepAlive (lines 65-107) and the response dispatch of
WebSocketResource.onMessage (lines 184-203)

Timers are absolute deadlines.  The keep-alive ping is sent with
`success = this.reset` and no error callback.  Every inbound frame fires
the 'message' listeners in registration order: first
WebSocketResource.onMessage (which may invoke the matched request's
success callback), then the `resetKeepAliveTimer` listener installed by
the constructor (lines 128-129). -/

/-- KeepAlive options (path defaults to "/", disconnect to true). -/
structure KAConfig where
  path : String
  disconnect : Bool
deriving DecidableEq, Repr

/-- Observable keep-alive state: current time, the two timers (absolute
fire deadlines), the GET pings sent so far, whether the last ping still
sits in the pending table, and the close call issued, if any. -/
structure KAState where
  now : Nat
  kaTimer : Option Nat
  dcTimer : Option Nat
  pings : List (Nat × String)
  pingPending : Bool
  closed : Option (Nat × String)
deriving DecidableEq, Repr

/-- KeepAlive.reset (lines 87-106): clear both timers and arm the 50 s
keep-alive timer. -/
def resetKA (s : KAState) (t : Nat) : KAState :=
  { s with now := t, kaTimer := some (t + 50000), dcTimer := none }

/-- The keep-alive timer callback (lines 90-105): send
`GET <path>` with `success = reset`, then either arm the 1 s disconnect
timer (disconnect mode) or reset immediately. -/
def fireKaTimer (ka : KAConfig) (s : KAState) (tk : Nat) : KAState :=
  let s1 := { s with now := tk, kaTimer := none,
                     pings := s.pings ++ [(tk, ka.path)], pingPending := true }
  if ka.disconnect then { s1 with dcTimer := some (tk + 1000) }
  else resetKA s1 tk

/-- The disconnect timer callback (lines 98-101): clear the keep-alive
timer and call `wsr.close(3001, "No response to keepalive request")`;
the resulting 'close' event runs KeepAlive.stop, clearing all timers. -/
def fireDcTimer (s : KAState) (td : Nat) : KAState :=
  { s with now := td, kaTimer := none, dcTimer := none,
           closed := some (3001, "No response to keepalive request") }

/-- Response dispatch of WebSocketResource.onMessage for a RESPONSE
matching the pending keep-alive ping: status in [200,300) runs the
request's success callback (KeepAlive.reset); otherwise the error
callback would run, but the ping registered none, so nothing happens. -/
def kaResponseCallback (s : KAState) (t : Nat) (status : Nat) : KAState :=
  if s.pingPending then
    let s1 := { s with pingPending := false }
    if 200 ≤ status ∧ status < 300 then resetKA s1 t else s1
  else s

/-- Arrival of an inbound frame at time `t`.  `respStatus = some st`
means the frame is a RESPONSE (matched against the pending ping);
`none` means any other frame.  Both 'message' listeners run: onMessage
first, then the keep-alive reset listener. -/
def kaOnFrame (s : KAState) (t : Nat) (respStatus : Option Nat) : KAState :=
  let s1 := match respStatus with
    | some st => kaResponseCallback s t st
    | none => s
  resetKA s1 t

/-- Deadline of a timer that is due at or before time `t`. -/
def dueAt (timer : Option Nat) (t : Nat) : Option Nat :=
  match timer with
  | some tk => if tk ≤ t then some tk else none
  | none => none

/-- Run the timer loop up to time `t`: repeatedly fire the earliest due
timer.  `fuel` bounds the number of firings (two suffice between
successive external events in disconnect mode). -/
def advanceTo (ka : KAConfig) : Nat → KAState → Nat → KAState
  | 0, s, t => { s with now := t }
  | fuel + 1, s, t =>
    match dueAt s.kaTimer t, dueAt s.dcTimer t with
    | none, none => { s with now := t }
    | some tk, none => advanceTo ka fuel (fireKaTimer ka s tk) t
    | none, some td => advanceTo ka fuel (fireDcTimer s td) t
    | some tk, some td =>
      if tk ≤ td then advanceTo ka fuel (fireKaTimer ka s tk) t
      else advanceTo ka fuel (fireDcTimer s td) t

/-- Keep-alive state right after the 'open' event fired the first reset
at time `t` (lines 127-128). -/
def kaInit (t : Nat) : KAState :=
  resetKA { now := t, kaTimer := none, dcTimer := none, pings := [],
            pingPending := false, closed := none } t

/-! ### Data model of the receive pipeline (protobuf message shapes) -/

/-- Envelope.Type of the wire protobuf. -/
inductive EnvelopeType
  | UNKNOWN
  | CIPHERTEXT
  | KEY_EXCHANGE
  | PREKEY_BUNDLE
  | RECEIPT
deriving DecidableEq, Repr

/-- An AttachmentPointer; `data` is filled by handleAttachment. -/
structure AttachmentPointer where
  id : Nat
  key : Bytes
  data : Option Bytes
deriving DecidableEq, Repr

/-- GroupContext.Type of the protobuf. -/
inductive GroupType
  | UNKNOWN
  | UPDATE
  | DELIVER
  | QUIT
deriving DecidableEq, Repr

/-- A GroupContext; `added` is the extra property processDecrypted
attaches after a roster update. -/
structure GroupContext where
  id : Bytes
  type : GroupType
  name : Option String
  avatar : Option AttachmentPointer
  members : List String
  added : List String := []
deriving DecidableEq, Repr

/-- A decoded DataMessage. -/
structure DataMessage where
  body : Option String
  attachments : List AttachmentPointer
  group : Option GroupContext
  flags : Option Nat
  expireTimer : Option Nat
deriving DecidableEq, Repr

/-- SyncMessage.Sent. -/
structure SentMessage where
  destination : String
  timestamp : Nat
  message : DataMessage
  expirationStartTimestamp : Option Nat
deriving DecidableEq, Repr

/-- One entry of SyncMessage.Read. -/
structure ReadItem where
  sender : String
  timestamp : Nat
deriving DecidableEq, Repr

/-- A SyncMessage; at most one of the optional fields is interpreted,
in the order the source checks them. -/
structure SyncMessage where
  sent : Option SentMessage
  contacts : Option AttachmentPointer
  groups : Option AttachmentPointer
  blocked : Option (List String)
  request : Bool
  read : Option (List ReadItem)
deriving DecidableEq, Repr

/-- A decoded Content wrapper. -/
structure Content where
  dataMessage : Option DataMessage
  syncMessage : Option SyncMessage
deriving DecidableEq, Repr

/-- One record streamed from a group-sync blob by GroupBuffer. -/
structure GroupRecord where
  id : Bytes
  active : Bool
  members : List String
deriving DecidableEq, Repr

/-- A wire Envelope after the signaling-key decrypt. -/
structure Envelope where
  type : EnvelopeType
  source : String
  sourceDevice : Nat
  timestamp : Nat
  content : Option Bytes
  legacyMessage : Option Bytes
deriving DecidableEq, Repr

/-- DataMessage.Flags.END_SESSION. -/
def FLAG_END_SESSION : Nat := 1

/-- DataMessage.Flags.EXPIRATION_TIMER_UPDATE. -/
def FLAG_EXPIRATION_TIMER_UPDATE : Nat := 2

/-- Events dispatched by the receiver to its consumer. -/
inductive Ev
  | receipt (envelope : Envelope)
  | message (source : String) (timestamp : Nat) (msg : DataMessage)
  | sent (destination : String) (timestamp : Nat) (msg : DataMessage)
      (expirationStartTimestamp : Option Nat)
  | read (sender : String) (timestamp : Nat)
  | contact (details : String)
  | contactsync
  | group (record : GroupRecord)
  | groupsync
  | error
deriving DecidableEq, Repr

/-- Errors with which a promise in the pipeline can settle. -/
inductive Err
  | jsError (msg : String)
  | incomingIdentityKey (address : String)
  | decodeFailure
deriving DecidableEq, Repr

/-- External collaborators and receiver identity, bundled.  Each field
models a call the source makes into a module outside this file:
libsignal session ciphers, protobuf codecs, the storage module, the
relay server, and the signaling-key crypto. -/
structure Ctx where
  number : String
  deviceId : Nat
  decryptWebsocketMessage : Bytes → Except String Bytes
  decodeEnvelope : Bytes → Option Envelope
  decryptWhisperMessage : String → Nat → Bytes → Except String Bytes
  decryptPreKeyWhisper : String → Nat → Bytes → Except String Bytes
  decodeContent : Bytes → Option Content
  decodeDataMessage : Bytes → Option DataMessage
  getAttachment : Nat → Except String Bytes
  decryptAttachment : Bytes → Bytes → Except String Bytes
  getDeviceIds : String → List Nat
  closeSession : String → Nat → Except String Unit
  groupsGetNumbers : Bytes → Option (List String)
  groupsCreateNewGroup : List String → Bytes → Except String Unit
  groupsUpdateNumbers : Bytes → List String → Except String (List String)
  groupsDeleteGroup : Bytes → Except String Unit
  groupsRemoveNumber : Bytes → Option String → Except String Unit
  groupsGetGroup : Bytes → Option (List String)
  contactRecords : Bytes → List String
  groupRecords : Bytes → List GroupRecord

/-! ### The decrypt-and-dispatch pipeline (MessageReceiver, lines 284-719)

Each handler returns the settled state of its promise together with the
events it dispatched, in dispatch order. -/

/-- MessageReceiver.decryptPreKeyWhisperMessage (lines 390-404): session
decrypt, then unpad; a catch over the whole chain turns an
"Unknown identity key" session error into IncomingIdentityKeyError and
rethrows everything else.  `ok none` is a resolved `undefined` (all-zero
unpad input). -/
def decryptPreKeyWhisperMessage (ctx : Ctx) (number : String) (deviceId : Nat)
    (ciphertext : Bytes) : Except Err (Option Bytes) :=
  let chained : Except String (Option Bytes) :=
    match ctx.decryptPreKeyWhisper number deviceId ciphertext with
    | .error m => .error m
    | .ok padded => unpad padded
  match chained with
  | .ok o => .ok o
  | .error m =>
    if m = "Unknown identity key" then
      .error (.incomingIdentityKey (number ++ "." ++ toString deviceId))
    else .error (.jsError m)

/-- MessageReceiver.decrypt (lines 363-389): dispatch on the envelope
type; the final catch dispatches an 'error' event and re-rejects. -/
def decryptEnvelope (ctx : Ctx) (env : Envelope) (ciphertext : Bytes) :
    Except Err (Option Bytes) × List Ev :=
  let inner : Except Err (Option Bytes) :=
    match env.type with
    | .CIPHERTEXT =>
      match ctx.decryptWhisperMessage env.source env.sourceDevice ciphertext with
      | .error m => .error (.jsError m)
      | .ok padded =>
        match unpad padded with
        | .error m => .error (.jsError m)
        | .ok o => .ok o
    | .PREKEY_BUNDLE => decryptPreKeyWhisperMessage ctx env.source env.sourceDevice ciphertext
    | _ => .error (.jsError "Unknown message type")
  match inner with
  | .ok pt => (.ok pt, [])
  | .error e => (.error e, [.error])

/-- MessageReceiver.handleAttachment (lines 576-591): fetch the blob
from the relay server, decrypt it with the attachment key, store the
plaintext into `.data`. -/
def handleAttachment (ctx : Ctx) (attachment : AttachmentPointer) :
    Except Err AttachmentPointer :=
  match ctx.getAttachment attachment.id with
  | .error m => .error (.jsError m)
  | .ok encrypted =>
    match ctx.decryptAttachment encrypted attachment.key with
    | .error m => .error (.jsError m)
    | .ok data => .ok { attachment with data := some data }

/-- Fetch and decrypt every attachment of a list; Promise.all fails when
any element fails. -/
def fetchAll (ctx : Ctx) : List AttachmentPointer → Except Err (List AttachmentPointer)
  | [] => .ok []
  | a :: rest =>
    match handleAttachment ctx a with
    | .error e => .error e
    | .ok a2 =>
      match fetchAll ctx rest with
      | .error e => .error e
      | .ok rest2 => .ok (a2 :: rest2)

/-- Close the open session of every listed device. -/
def closeAllSessions (ctx : Ctx) (number : String) : List Nat → Except String Unit
  | [] => .ok ()
  | d :: rest =>
    match ctx.closeSession number d with
    | .error m => .error m
    | .ok _ => closeAllSessions ctx number rest

/-- MessageReceiver.handleEndSession (lines 612-623): enumerate the
stored device ids of `number` and close each session. -/
def handleEndSession (ctx : Ctx) (number : String) : Except Err Unit :=
  match closeAllSessions ctx number (ctx.getDeviceIds number) with
  | .error m => .error (.jsError m)
  | .ok _ => .ok ()

/-- The group-context work of processDecrypted (lines 650-711),
applied to the message after flag normalisation.  `source` is `none`
when processDecrypted is called with one argument (tryMessageAgain);
on the unknown-group non-UPDATE path the JS then stores the
one-element list `[undefined]`, which `source.toList` renders as the
empty list — a deliberate flattening of the undefined element, only
reachable through tryMessageAgain and observed by no theorem here. -/
def groupStep (ctx : Ctx) (d1 : DataMessage) (source : Option String) :
    Except Err DataMessage :=
  match d1.group with
  | none => .ok d1
  | some g =>
    let avatarStep : Except Err (Option AttachmentPointer) :=
      if g.type = GroupType.UPDATE then
        match g.avatar with
        | some av =>
          match handleAttachment ctx av with
          | .error e => .error e
          | .ok av2 => .ok (some av2)
        | none => .ok none
      else .ok g.avatar
    match avatarStep with
    | .error e => .error e
    | .ok avatar2 =>
      let g2 := { g with avatar := avatar2 }
      match ctx.groupsGetNumbers g2.id with
      | none =>
        let g3 := if g2.type ≠ GroupType.UPDATE then { g2 with members := source.toList } else g2
        match ctx.groupsCreateNewGroup g3.members g3.id with
        | .error m => .error (.jsError m)
        | .ok _ => .ok { d1 with group := some g3 }
      | some _existing =>
        match g2.type with
        | GroupType.UPDATE =>
          match ctx.groupsUpdateNumbers g2.id g2.members with
          | .error m => .error (.jsError m)
          | .ok added =>
            let g3 := { g2 with added := added }
            if g3.avatar = none ∧ added = [] ∧ g3.name = none then
              .ok { d1 with group := some g3 }
            else
              .ok { d1 with group := some g3, body := none, attachments := [] }
        | GroupType.QUIT =>
          match (if source = some ctx.number then ctx.groupsDeleteGroup g2.id
                 else ctx.groupsRemoveNumber g2.id source) with
          | .error m => .error (.jsError m)
          | .ok _ => .ok { d1 with group := some g2, body := none, attachments := [] }
        | GroupType.DELIVER =>
          .ok { d1 with group := some { g2 with name := none, members := [], avatar := none } }
        | GroupType.UNKNOWN => .error (.jsError "Unknown group message type")

/-- MessageReceiver.processDecrypted (lines 624-719): normalise
`flags`/`expireTimer`, apply the flag rules, run the group work and the
attachment fetches (Promise.all), resolve with the cleaned message.
The attachment fetches are started synchronously on the list as it is
before the asynchronous group step replaces it with `[]`, which is why
`fetchAll` runs on `d1.attachments`; the final value keeps the group
step's replacement when it cleared the list. -/
def processDecrypted (ctx : Ctx) (decrypted : DataMessage) (source : Option String) :
    Except Err DataMessage :=
  let flags := decrypted.flags.getD 0
  let d0 := { decrypted with
              flags := some flags,
              expireTimer := some (decrypted.expireTimer.getD 0) }
  if flags &&& FLAG_END_SESSION ≠ 0 then
    .ok { d0 with body := none, attachments := [], group := none }
  else
    let step1 : Except Err DataMessage :=
      if flags &&& FLAG_EXPIRATION_TIMER_UPDATE ≠ 0 then
        .ok { d0 with body := none, attachments := [] }
      else if flags ≠ 0 then
        .error (.jsError "Unknown flags in message")
      else .ok d0
    match step1 with
    | .error e => .error e
    | .ok d1 =>
      match groupStep ctx d1 source with
      | .error e => .error e
      | .ok d2 =>
        match fetchAll ctx d1.attachments with
        | .error e => .error e
        | .ok fetched =>
          .ok (if d2.attachments.isEmpty then d2 else { d2 with attachments := fetched })

/-- Outcome of an envelope handler in the serial chain.  `settled` is
the state the handler's promise settles with; `chained` are the events
it dispatches before that promise settles — those are ordered by the
chain; `floating` collects the events of promises the handler fires
WITHOUT return or await (the contacts/groups sync blobs, source lines
485 and 487): they are triggered by this handler but emitted only after
it has settled, at an unspecified later time that may interleave with
later envelopes' events, so this field is a collection with no ordering
meaning. -/
structure HandlerOut where
  settled : Except Err Unit
  chained : List Ev
  floating : List Ev
deriving Repr

/-- MessageReceiver.handleDataMessage (lines 426-445): optional
end-session, processDecrypted, then dispatch a 'message' event (before
the returned promise settles). -/
def handleDataMessage (ctx : Ctx) (env : Envelope) (message : DataMessage) :
    HandlerOut :=
  let p : Except Err Unit :=
    if message.flags.getD 0 &&& FLAG_END_SESSION = FLAG_END_SESSION then
      handleEndSession ctx env.source
    else .ok ()
  match p with
  | .error e => ⟨.error e, [], []⟩
  | .ok _ =>
    match processDecrypted ctx message (some env.source) with
    | .error e => ⟨.error e, [], []⟩
    | .ok m => ⟨.ok (), [.message env.source env.timestamp m], []⟩

/-- MessageReceiver.handleSentMessage (lines 405-425). -/
def handleSentMessage (ctx : Ctx) (destination : String) (timestamp : Nat)
    (message : DataMessage) (expirationStartTimestamp : Option Nat) :
    HandlerOut :=
  let p : Except Err Unit :=
    if message.flags.getD 0 &&& FLAG_END_SESSION = FLAG_END_SESSION then
      handleEndSession ctx destination
    else .ok ()
  match p with
  | .error e => ⟨.error e, [], []⟩
  | .ok _ =>
    match processDecrypted ctx message (some ctx.number) with
    | .error e => ⟨.error e, [], []⟩
    | .ok m => ⟨.ok (), [.sent destination timestamp m expirationStartTimestamp], []⟩

/-- MessageReceiver.handleRead (lines 500-510): one 'read' event per
record. -/
def handleRead (items : List ReadItem) : List Ev :=
  items.map fun r => Ev.read r.sender r.timestamp

/-- MessageReceiver.handleContacts (lines 511-526): fetch and decrypt
the blob, then one 'contact' event per streamed record and a final
'contactsync'.  The caller does not await this promise; a rejected
attachment fetch silently drops all events. -/
def handleContacts (ctx : Ctx) (ap : AttachmentPointer) : List Ev :=
  match handleAttachment ctx ap with
  | .error _ => []
  | .ok ap2 => ((ctx.contactRecords (ap2.data.getD [])).map Ev.contact) ++ [Ev.contactsync]

/-- One record of a group sync (lines 535-563): active records run the
roster update first; a storage failure is caught and logged, dropping
that record's 'group' event. -/
def handleGroupRecord (ctx : Ctx) (r : GroupRecord) : List Ev :=
  if r.active then
    let stored : Except String Unit :=
      match ctx.groupsGetGroup r.id with
      | none => ctx.groupsCreateNewGroup r.members r.id
      | some _ =>
        match ctx.groupsUpdateNumbers r.id r.members with
        | .error m => .error m
        | .ok _ => .ok ()
    match stored with
    | .error _ => []
    | .ok _ => [Ev.group r]
  else [Ev.group r]

/-- MessageReceiver.handleGroups (lines 527-568): like handleContacts,
with 'group' events per record and a final 'groupsync'. -/
def handleGroups (ctx : Ctx) (ap : AttachmentPointer) : List Ev :=
  match handleAttachment ctx ap with
  | .error _ => []
  | .ok ap2 => ((ctx.groupRecords (ap2.data.getD [])).foldr
      (fun r acc => handleGroupRecord ctx r ++ acc) []) ++ [Ev.groupsync]

/-- MessageReceiver.handleSyncMessage (lines 464-499): source checks,
then dispatch on the first present field, in source order.  The sent
branch returns (awaits) its promise and the read branch dispatches its
events synchronously, so both land in `chained`; the contacts and
groups branches call handleContacts/handleGroups with neither return
nor await, so the handler settles ok at once and those events go to
`floating`. -/
def handleSyncMessage (ctx : Ctx) (env : Envelope) (sm : SyncMessage) :
    HandlerOut :=
  if env.source ≠ ctx.number then
    ⟨.error (.jsError "Received sync message from another number"), [], []⟩
  else if env.sourceDevice = ctx.deviceId then
    ⟨.error (.jsError "Received sync message from our own device"), [], []⟩
  else
    match sm.sent with
    | some sentMessage =>
      handleSentMessage ctx sentMessage.destination sentMessage.timestamp
        sentMessage.message sentMessage.expirationStartTimestamp
    | none =>
      match sm.contacts with
      | some ap => ⟨.ok (), [], handleContacts ctx ap⟩
      | none =>
        match sm.groups with
        | some ap => ⟨.ok (), [], handleGroups ctx ap⟩
        | none =>
          match sm.blocked with
          | some _numbers => ⟨.ok (), [], []⟩
          | none =>
            if sm.request then ⟨.ok (), [], []⟩
            else
              match sm.read with
              | some items => ⟨.ok (), handleRead items, []⟩
              | none => ⟨.error (.jsError "Got empty SyncMessage"), [], []⟩

/-- MessageReceiver.handleContentMessage (lines 452-463): ratchet
decrypt, decode Content, dispatch sync or data message.  The decrypt
catch's error event is dispatched before the rejection propagates, so
it is chained. -/
def handleContentMessage (ctx : Ctx) (env : Envelope) (ciphertext : Bytes) :
    HandlerOut :=
  match decryptEnvelope ctx env ciphertext with
  | (.error e, evs) => ⟨.error e, evs, []⟩
  | (.ok none, evs) => ⟨.error .decodeFailure, evs, []⟩
  | (.ok (some plaintext), evs) =>
    match ctx.decodeContent plaintext with
    | none => ⟨.error .decodeFailure, evs, []⟩
    | some content =>
      match content.syncMessage with
      | some sm =>
        let r := handleSyncMessage ctx env sm
        ⟨r.settled, evs ++ r.chained, r.floating⟩
      | none =>
        match content.dataMessage with
        | some dm =>
          let r := handleDataMessage ctx env dm
          ⟨r.settled, evs ++ r.chained, r.floating⟩
        | none =>
          ⟨.error (.jsError "Got Content message with no dataMessage and no syncMessage"), evs, []⟩

/-- MessageReceiver.handleLegacyMessage (lines 446-451). -/
def handleLegacyMessage (ctx : Ctx) (env : Envelope) (ciphertext : Bytes) :
    HandlerOut :=
  match decryptEnvelope ctx env ciphertext with
  | (.error e, evs) => ⟨.error e, evs, []⟩
  | (.ok none, evs) => ⟨.error .decodeFailure, evs, []⟩
  | (.ok (some plaintext), evs) =>
    match ctx.decodeDataMessage plaintext with
    | none => ⟨.error .decodeFailure, evs, []⟩
    | some dm =>
      let r := handleDataMessage ctx env dm
      ⟨r.settled, evs ++ r.chained, r.floating⟩

/-- MessageReceiver.handleEnvelope (lines 315-327): receipts dispatch a
'receipt' event; otherwise the content (checked first) or legacy body
is handled; neither present throws. -/
def handleEnvelope (ctx : Ctx) (env : Envelope) : HandlerOut :=
  if env.type = EnvelopeType.RECEIPT then
    ⟨.ok (), [.receipt env], []⟩
  else
    match env.content with
    | some ct => handleContentMessage ctx env ct
    | none =>
      match env.legacyMessage with
      | some ct => handleLegacyMessage ctx env ct
      | none =>
        ⟨.error (.jsError "Received message with no content and no legacyMessage"), [], []⟩

/-! ### The serial envelope queue (lines 311-314)

`this.pending = this.pending.then(handleEnvelope, handleEnvelope)`:
the same handler is installed as fulfillment AND rejection callback, so
it runs once the previous task settles either way; the rejection reason
is discarded. -/

/-- Promise.prototype.then with an optional rejection handler: without
one, a rejection skips the fulfillment handler and propagates. -/
def pThen (p : Except Err Unit)
    (onFulfilled : Unit → HandlerOut)
    (onRejected : Option (Err → HandlerOut)) :
    HandlerOut :=
  match p with
  | .ok u => onFulfilled u
  | .error e =>
    match onRejected with
    | some f => f e
    | none => ⟨.error e, [], []⟩

/-- MessageReceiver.queueEnvelope: chain the envelope's handler onto the
pending tail with the handler as both callbacks. -/
def queueEnvelope (ctx : Ctx) (pending : Except Err Unit) (env : Envelope) :
    HandlerOut :=
  pThen pending (fun _ => handleEnvelope ctx env) (some fun _ => handleEnvelope ctx env)

/-- Run the serial queue over a list of envelopes in arrival order,
starting from the settled state `pending`.  `settled` is the final
state of the chain's tail; `chained` are the events dispatched inside
the chain, which the chain orders; `floating` merely collects the
events of the fire-and-forget promises each handler triggered — the
program gives them no ordering relative to later envelopes' events. -/
def runQueue (ctx : Ctx) (pending : Except Err Unit) :
    List Envelope → HandlerOut
  | [] => ⟨pending, [], []⟩
  | env :: rest =>
    let r := queueEnvelope ctx pending env
    let rs := runQueue ctx r.settled rest
    ⟨rs.settled, r.chained ++ rs.chained, r.floating ++ rs.floating⟩

/-! ### Inbound request handling (MessageReceiver.handleRequest,
lines 284-310) and the blocked-sender check (lines 572-575) -/

/-- MessageReceiver.isBlocked as the source ships it: the storage lookup
is commented out and the function returns false unconditionally. -/
def isBlocked (_number : String) : Bool :=
  false

/-- The blocked-sender check the spec describes and the source keeps as
dead code: membership of the stored blocked list.  Kept only to state
how `isBlocked` diverges from it. -/
def isBlockedIntended (blockedStore : List String) (number : String) : Bool :=
  blockedStore.contains number

/-- Observable actions of handleRequest: the RESPONSE sent back over
the socket, an 'error' event, or an envelope put on the serial queue. -/
inductive HRAction
  | respond (status : Nat) (message : String)
  | errorEvent
  | enqueue (envelope : Envelope)
deriving DecidableEq, Repr

/-- MessageReceiver.handleRequest: signaling-key decrypt, Envelope
decode, then respond 200 and enqueue unless blocked; the catch over the
whole chain responds 500 and dispatches an 'error' event. -/
def handleRequest (ctx : Ctx) (body : Bytes) : List HRAction :=
  match ctx.decryptWebsocketMessage body with
  | .error _ => [.respond 500 "Bad encrypted websocket message", .errorEvent]
  | .ok plaintext =>
    match ctx.decodeEnvelope plaintext with
    | none => [.respond 500 "Bad encrypted websocket message", .errorEvent]
    | some envelope =>
      .respond 200 "OK" ::
        (if isBlocked envelope.source then [] else [.enqueue envelope])

/-- Whether an action is a RESPONSE frame. -/
def isRespond : HRAction → Bool
  | .respond _ _ => true
  | _ => false

/-! ### tryMessageAgain (lines 592-611)

Reruns the prekey decrypt for the stored address, decodes a
DataMessage, optionally ends the session, and resolves with
processDecrypted's result — called with a single argument, so `source`
is undefined.  No event is dispatched anywhere on this path. -/

/-- MessageReceiver.tryMessageAgain; the address string has already been
split into `number`/`deviceId` (SignalProtocolAddress.fromString). -/
def tryMessageAgain (ctx : Ctx) (number : String) (deviceId : Nat)
    (ciphertext : Bytes) : Except Err DataMessage × List Ev :=
  match decryptPreKeyWhisperMessage ctx number deviceId ciphertext with
  | .error e => (.error e, [])
  | .ok none => (.error .decodeFailure, [])
  | .ok (some plaintext) =>
    match ctx.decodeDataMessage plaintext with
    | none => (.error .decodeFailure, [])
    | some finalMessage =>
      let p : Except Err Unit :=
        if finalMessage.flags.getD 0 &&& FLAG_END_SESSION = FLAG_END_SESSION then
          handleEndSession ctx number
        else .ok ()
      match p with
      | .error e => (.error e, [])
      | .ok _ => (processDecrypted ctx finalMessage none, [])

/-! ### Concrete instances used by witnesses and counterexamples -/

/-- A context whose external calls all take their failure (or empty)
branch; variants below override single fields. -/
def ctxTrivial : Ctx :=
  { number := "+15550000000"
    deviceId := 1
    decryptWebsocketMessage := fun _ => .error "decrypt failed"
    decodeEnvelope := fun _ => none
    decryptWhisperMessage := fun _ _ _ => .error "no session"
    decryptPreKeyWhisper := fun _ _ _ => .error "no session"
    decodeContent := fun _ => none
    decodeDataMessage := fun _ => none
    getAttachment := fun _ => .error "not found"
    decryptAttachment := fun _ _ => .error "bad mac"
    getDeviceIds := fun _ => []
    closeSession := fun _ _ => .ok ()
    groupsGetNumbers := fun _ => none
    groupsCreateNewGroup := fun _ _ => .ok ()
    groupsUpdateNumbers := fun _ _ => .ok []
    groupsDeleteGroup := fun _ => .ok ()
    groupsRemoveNumber := fun _ _ => .ok ()
    groupsGetGroup := fun _ => none
    contactRecords := fun _ => []
    groupRecords := fun _ => [] }

/-- A context in which the signaling-key decrypt succeeds but the
Envelope protobuf decode throws. -/
def ctxDecodeFail : Ctx :=
  { ctxTrivial with
    decryptWebsocketMessage := fun _ => .ok [1]
    decodeEnvelope := fun _ => none }

/-- An envelope with neither `content` nor `legacyMessage`. -/
def envNoContentEx : Envelope :=
  { type := EnvelopeType.UNKNOWN, source := "+15551230000", sourceDevice := 1,
    timestamp := 1, content := none, legacyMessage := none }

/-- A receipt envelope. -/
def envReceiptEx : Envelope :=
  { type := EnvelopeType.RECEIPT, source := "+15551230000", sourceDevice := 1,
    timestamp := 7, content := none, legacyMessage := none }

/-- A ciphertext envelope whose ratchet decrypt will fail under
`ctxTrivial`. -/
def envCipherEx : Envelope :=
  { type := EnvelopeType.CIPHERTEXT, source := "+15551230000", sourceDevice := 1,
    timestamp := 3, content := some [1], legacyMessage := none }

/-- An envelope from a sender the consumer has marked blocked. -/
def envBlockedEx : Envelope :=
  { type := EnvelopeType.CIPHERTEXT, source := "+15551234567", sourceDevice := 1,
    timestamp := 5, content := some [1], legacyMessage := none }

/-- A context that decrypts and decodes every inbound body to
`envBlockedEx`. -/
def ctxBlocked : Ctx :=
  { ctxTrivial with
    decryptWebsocketMessage := fun _ => .ok [1]
    decodeEnvelope := fun _ => some envBlockedEx }

/-- A plain data message. -/
def dmEx : DataMessage :=
  { body := some "hi", attachments := [], group := none, flags := none,
    expireTimer := none }

/-- A context whose prekey decrypt succeeds with a padded plaintext and
whose DataMessage decode yields `dmEx`. -/
def ctxReplay : Ctx :=
  { ctxTrivial with
    decryptPreKeyWhisper := fun _ _ _ => .ok [104, 105, 0x80]
    decodeDataMessage := fun _ => some dmEx }

/-! ### Helper lemmas -/

/-- Leading zero bytes of the reversed input (trailing zeros of the
original) are skipped by the tail scan. -/
theorem unpadScan_replicate_append (k : Nat) (rest : Bytes) :
    unpadScan (List.replicate k 0 ++ rest) = unpadScan rest := by
  induction k with
  | zero => rfl
  | succ n ih => simpa [unpadScan] using ih

/-- The serial chain installs the handler as both fulfillment and
rejection callback, so the queued task runs whatever the settled state
of the previous task was. -/
theorem queueEnvelope_settles_either_way (ctx : Ctx) (pending : Except Err Unit)
    (env : Envelope) : queueEnvelope ctx pending env = handleEnvelope ctx env := by
  cases pending <;> rfl

/-- An indexed read (with default 0) from a list of bytes stays below
256. -/
theorem getD_byte_bound (l : List Nat) (h : ∀ b ∈ l, b < 256) (i : Nat) :
    l.getD i 0 < 256 := by
  induction l generalizing i with
  | nil => simp [List.getD]
  | cons a t ih =>
    cases i with
    | zero => exact h a (by simp)
    | succ j =>
      simpa [List.getD] using ih (fun b hb => h b (by simp [hb])) j

/-! ### Claim C4 -/

/-- Claim C4: unpadding is a right inverse of padding — for every byte
string and every number k of trailing zero bytes,
unpad (plaintext concatenated with 0x80 and k zeros) returns exactly
the plaintext. -/
theorem unpad_right_inverse (plaintext : Bytes) (k : Nat) :
    unpad (plaintext ++ 0x80 :: List.replicate k 0) = .ok (some plaintext) := by
  unfold unpad
  rw [List.reverse_append, List.reverse_cons, List.reverse_replicate,
    List.append_assoc, List.singleton_append, unpadScan_replicate_append]
  simp [unpadScan]

/-! ### Claim C3 -/

/-- Claim C3 (counterexample): the claim says an input consisting
solely of 0x00 bytes, or the empty input, fails with InvalidPadding; in
the source the scan loop falls off the front of the array and the
function returns `undefined` without raising. -/
theorem unpad_all_zero_counterexample :
    unpad [] = .ok none ∧ unpad [0, 0, 0] = .ok none ∧
    unpad ([] : Bytes) ≠ .error "Invalid padding" := by
  refine ⟨rfl, rfl, by simp [unpad, unpadScan]⟩

/-- Claim C3 (amended): unpad fails with InvalidPadding whenever the
first non-zero byte from the tail exists and is not 0x80; but inputs
with no non-zero byte at all (all-zero or empty) return `undefined`
(no plaintext) without failing. -/
theorem unpad_tail_scan :
    (∀ k : Nat, unpad (List.replicate k 0) = .ok none)
    ∧ (∀ (p : Bytes) (b k : Nat), b ≠ 0x80 → b ≠ 0 →
        unpad (p ++ b :: List.replicate k 0) = .error "Invalid padding") := by
  constructor
  · intro k
    unfold unpad
    rw [List.reverse_replicate, ← List.append_nil (List.replicate k 0),
      unpadScan_replicate_append]
    rfl
  · intro p b k hb hz
    unfold unpad
    rw [List.reverse_append, List.reverse_cons, List.reverse_replicate,
      List.append_assoc, List.singleton_append, unpadScan_replicate_append]
    simp [unpadScan, hb, hz]

/-- Claim C3 (witness for the amended statement). -/
theorem unpad_tail_scan_witness :
    unpad ([1, 2] ++ 5 :: List.replicate 3 0) = .error "Invalid padding" :=
  unpad_tail_scan.2 [1, 2] 5 3 (by decide) (by decide)

/-! ### Claim C5 -/

/-- Claim C5: the claim says all 64 bits of a fresh request id come
from random bytes, so the id ranges over the full unsigned 64-bit
space.  The source calls crypto.randomBytes(ints.length) where
ints.length is the element count 2, so only two random bytes are drawn
and every id is below 2^40 (indeed of the form b0 + b1 * 2^32 with
b0, b1 < 256): values at or above 2^40 are unreachable. -/
theorem requestId_not_full_range (randomBytes : Nat → Bytes)
    (h : ∀ b ∈ randomBytes 2, b < 256) :
    newRequestId randomBytes < 2 ^ 40 := by
  have h0 := getD_byte_bound (randomBytes 2) h 0
  have h1 := getD_byte_bound (randomBytes 2) h 1
  unfold newRequestId newRequestIdFromBytes toUint32
  have e32 : (2 : Nat) ^ 32 = 4294967296 := by norm_num
  have e40 : (2 : Nat) ^ 40 = 1099511627776 := by norm_num
  rw [e32, e40]
  omega

/-- Claim C5 (witness): a concrete crypto.randomBytes outcome. -/
theorem requestId_not_full_range_witness :
    newRequestId (fun _ => [7, 9]) < 2 ^ 40 :=
  requestId_not_full_range (fun _ => [7, 9]) (by decide)

/-! ### Claim C6 -/

/-- Claim C6 (counterexample): with one pending outgoing request, close
leaves the pending table untouched and invokes no callback — contrary
to the claim that every entry fails with ConnectionClosed and is
removed. -/
theorem close_leaves_pending_counterexample :
    wsrClose { socketReadyState := some 1,
               outgoingRequests := [(42, { id := 42, hasSuccess := true, hasError := true })] }
             (some 1006) "abnormal"
      = ({ socketReadyState := none,
           outgoingRequests := [(42, { id := 42, hasSuccess := true, hasError := true })] },
         [(1006, "abnormal")], []) := by
  rfl

/-- Claim C6 (amended): closing the connection never touches the
pending-request table — the entries remain and no request callback is
invoked, whatever the state, code and reason. -/
theorem close_pending_untouched (s : WSRState) (code : Option Nat) (reason : String) :
    (wsrClose s code reason).1.outgoingRequests = s.outgoingRequests
    ∧ (wsrClose s code reason).2.2 = [] := by
  unfold wsrClose
  rcases s.socketReadyState with _ | rs
  · exact ⟨rfl, rfl⟩
  · by_cases hrs : rs = WS_CLOSED <;> simp [hrs]

/-! ### Claim C1 -/

/-- Claim C1 (counterexample): an inbound body whose signaling-key
decrypt succeeds but whose Envelope decode throws is answered with 500
and an error event, not with the 200 the claim requires after a
successful decrypt. -/
theorem handleRequest_decode_failure_counterexample :
    ctxDecodeFail.decryptWebsocketMessage [0] = .ok [1]
    ∧ handleRequest ctxDecodeFail [0]
        = [.respond 500 "Bad encrypted websocket message", .errorEvent]
    ∧ HRAction.respond 200 "OK" ∉ handleRequest ctxDecodeFail [0] := by
  refine ⟨rfl, rfl, by decide⟩

/-- Claim C1 (amended): every inbound PUT /messages request produces
exactly one RESPONSE — 200 "OK", before any queueing, when both the
signaling-key decrypt and the Envelope decode succeed; 500
"Bad encrypted websocket message" together with an error event when
either step fails. -/
theorem handleRequest_exactly_one_response (ctx : Ctx) (body : Bytes) :
    ((handleRequest ctx body).filter isRespond).length = 1
    ∧ (∀ e, ctx.decryptWebsocketMessage body = .error e →
        handleRequest ctx body
          = [.respond 500 "Bad encrypted websocket message", .errorEvent])
    ∧ (∀ pt, ctx.decryptWebsocketMessage body = .ok pt →
        ctx.decodeEnvelope pt = none →
        handleRequest ctx body
          = [.respond 500 "Bad encrypted websocket message", .errorEvent])
    ∧ (∀ pt env, ctx.decryptWebsocketMessage body = .ok pt →
        ctx.decodeEnvelope pt = some env →
        handleRequest ctx body
          = HRAction.respond 200 "OK" ::
              (if isBlocked env.source then [] else [.enqueue env])) := by
  refine ⟨?_, ?_, ?_, ?_⟩
  · rcases hd : ctx.decryptWebsocketMessage body with m | pt
    · simp [handleRequest, hd, isRespond]
    · rcases he : ctx.decodeEnvelope pt with _ | env
      · simp [handleRequest, hd, he, isRespond]
      · simp [handleRequest, hd, he, isRespond, isBlocked]
  · intro e he
    simp [handleRequest, he]
  · intro pt h1 h2
    simp [handleRequest, h1, h2]
  · intro pt env h1 h2
    simp [handleRequest, h1, h2]

/-- Claim C1 (witness for the amended statement). -/
theorem handleRequest_exactly_one_response_witness :
    handleRequest ctxDecodeFail [0]
      = [.respond 500 "Bad encrypted websocket message", .errorEvent] :=
  (handleRequest_exactly_one_response ctxDecodeFail [0]).2.2.1 [1] rfl rfl

/-! ### Claim C8 -/

/-- Claim C8: the claim (and the spec's stated intent) says an envelope
whose source is in the stored blocked list is acked with 200 but
dropped before the queue.  The shipped isBlocked returns false
unconditionally — the storage lookup is commented out — so the
envelope is enqueued anyway, for every store that marks the source
blocked. -/
theorem blocked_sender_still_enqueued (store : List String) (ctx : Ctx)
    (body pt : Bytes) (env : Envelope)
    (h1 : ctx.decryptWebsocketMessage body = .ok pt)
    (h2 : ctx.decodeEnvelope pt = some env)
    (_h3 : isBlockedIntended store env.source = true) :
    isBlocked env.source = false
    ∧ handleRequest ctx body = [.respond 200 "OK", .enqueue env] := by
  refine ⟨rfl, ?_⟩
  simp [handleRequest, h1, h2, isBlocked]

/-- Claim C8 (witness): the blocked store contains the sender of
`envBlockedEx`, yet the envelope is acked and enqueued. -/
theorem blocked_sender_still_enqueued_witness :
    isBlocked envBlockedEx.source = false
    ∧ handleRequest ctxBlocked [0] = [.respond 200 "OK", .enqueue envBlockedEx] :=
  blocked_sender_still_enqueued ["+15551234567"] ctxBlocked [0] [1] envBlockedEx
    rfl rfl (by decide)

/-! ### Claim C9 -/

/-- Claim C9 (counterexample): a tryMessageAgain call that decrypts and
decodes successfully resolves with the processed message but dispatches
no event at all — in particular no `message` event, contrary to the
claim. -/
theorem tryMessageAgain_counterexample :
    tryMessageAgain ctxReplay "+15551234567" 1 [9]
      = (.ok { body := some "hi", attachments := [], group := none,
               flags := some 0, expireTimer := some 0 }, ([] : List Ev)) := by
  rfl

/-- Claim C9 (amended): tryMessageAgain reruns the prekey decrypt path
and, on success, decodes the plaintext as a DataMessage, performs
end-session handling when flagged, and resolves with processDecrypted's
result; it dispatches no events — delivery of a `message` event is left
to the caller. -/
theorem tryMessageAgain_no_events :
    (∀ (ctx : Ctx) (number : String) (deviceId : Nat) (ct : Bytes),
        (tryMessageAgain ctx number deviceId ct).2 = [])
    ∧ (∀ (ctx : Ctx) (number : String) (deviceId : Nat) (ct pt : Bytes)
        (dm : DataMessage),
        decryptPreKeyWhisperMessage ctx number deviceId ct = .ok (some pt) →
        ctx.decodeDataMessage pt = some dm →
        dm.flags.getD 0 &&& FLAG_END_SESSION ≠ FLAG_END_SESSION →
        tryMessageAgain ctx number deviceId ct
          = (processDecrypted ctx dm none, [])) := by
  constructor
  · intro ctx number deviceId ct
    unfold tryMessageAgain
    split
    · rfl
    · rfl
    · split
      · rfl
      · dsimp only
        split <;> rfl
  · intro ctx number deviceId ct pt dm h1 h2 h3
    unfold tryMessageAgain
    rw [h1]
    dsimp only
    rw [h2]
    dsimp only
    rw [if_neg h3]

/-- Claim C9 (witness for the amended statement). -/
theorem tryMessageAgain_no_events_witness :
    tryMessageAgain ctxReplay "+15551234567" 1 [9]
      = (processDecrypted ctxReplay dmEx none, []) :=
  tryMessageAgain_no_events.2 ctxReplay "+15551234567" 1 [9] [104, 105] dmEx
    rfl rfl (by decide)

/-! ### Claim C2 -/

/-- Claim C2 (counterexample): an envelope with neither content nor
legacyMessage makes its handler fail; the failure settles the chain's
tail, no `error` event is dispatched for it, and the next envelope's
handler still runs — contrary to the claim that such failures are
reported as error events. -/
theorem queue_swallowed_failure_counterexample :
    runQueue ctxTrivial (.ok ()) [envNoContentEx]
      = ⟨.error (.jsError "Received message with no content and no legacyMessage"), [], []⟩
    ∧ runQueue ctxTrivial (.ok ()) [envNoContentEx, envReceiptEx]
      = ⟨.ok (), [Ev.receipt envReceiptEx], []⟩ := by
  exact ⟨rfl, rfl⟩

/-- Claim C2 (amended): envelope N's handler runs exactly once, after
its predecessor's future has settled and whatever that outcome was (the
handler is installed as both fulfillment and rejection callback, first
conjunct); every event of a run is produced by its own envelope's
handler, the chained events in arrival order (second conjunct; the
floating equation only says which handler triggered each
fire-and-forget event, with no ordering meaning); ratchet-decrypt
failures are reported as `error` events by decrypt's catch (third
conjunct), but handler failures outside that catch are swallowed
without an error event (see the counterexample). -/
theorem queue_serial_and_error_reporting :
    (∀ (ctx : Ctx) (p : Except Err Unit) (env : Envelope),
        queueEnvelope ctx p env = handleEnvelope ctx env)
    ∧ (∀ (ctx : Ctx) (p : Except Err Unit) (l : List Envelope),
        (runQueue ctx p l).chained
            = l.flatMap (fun e => (handleEnvelope ctx e).chained)
        ∧ (runQueue ctx p l).floating
            = l.flatMap (fun e => (handleEnvelope ctx e).floating))
    ∧ (∀ (ctx : Ctx) (env : Envelope) (ct : Bytes) (m : String),
        env.type = EnvelopeType.CIPHERTEXT → env.content = some ct →
        ctx.decryptWhisperMessage env.source env.sourceDevice ct = .error m →
        Ev.error ∈ (handleEnvelope ctx env).chained) := by
  refine ⟨queueEnvelope_settles_either_way, ?_, ?_⟩
  · intro ctx p l
    induction l generalizing p with
    | nil => exact ⟨rfl, rfl⟩
    | cons e rest ih =>
      refine ⟨?_, ?_⟩ <;>
        simp [runQueue, queueEnvelope_settles_either_way, (ih _).1, (ih _).2]
  · intro ctx env ct m hty hct hdec
    simp [handleEnvelope, hty, hct, handleContentMessage, decryptEnvelope, hdec]

/-- Claim C2 (witness for the amended statement): a failed predecessor
does not stop the receipt envelope's handler, and a ratchet-decrypt
failure yields a chained error event. -/
theorem queue_serial_and_error_reporting_witness :
    queueEnvelope ctxTrivial (.error (.jsError "boom")) envReceiptEx
      = handleEnvelope ctxTrivial envReceiptEx
    ∧ Ev.error ∈ (handleEnvelope ctxTrivial envCipherEx).chained :=
  ⟨queue_serial_and_error_reporting.1 ctxTrivial (.error (.jsError "boom")) envReceiptEx,
   queue_serial_and_error_reporting.2.2 ctxTrivial envCipherEx [1] "no session"
     rfl rfl rfl⟩

/-! ### Keep-alive scenario lemmas -/

/-- During the first 50 s of silence nothing fires. -/
theorem ka_silent_window (p : String) (t0 t : Nat) (h : t < t0 + 50000) :
    advanceTo ⟨p, true⟩ 3 (kaInit t0) t
      = { now := t, kaTimer := some (t0 + 50000), dcTimer := none,
          pings := [], pingPending := false, closed := none } := by
  have hnot : ¬ (t0 + 50000 ≤ t) := by omega
  simp [advanceTo, kaInit, resetKA, dueAt, hnot]

/-- Between 50 s and 51 s of silence exactly one ping has been sent and
the 1 s disconnect timer is armed. -/
theorem ka_after_ping (p : String) (t0 t : Nat)
    (h1 : t0 + 50000 ≤ t) (h2 : t < t0 + 51000) :
    advanceTo ⟨p, true⟩ 3 (kaInit t0) t
      = { now := t, kaTimer := none, dcTimer := some (t0 + 51000),
          pings := [(t0 + 50000, p)], pingPending := true, closed := none } := by
  have e : t0 + 50000 + 1000 = t0 + 51000 := by omega
  have hb : ¬ (t0 + 51000 ≤ t) := by omega
  simp [advanceTo, kaInit, resetKA, dueAt, fireKaTimer, h1, e, hb]

/-- From 51 s of silence on, the close at 3001 has happened. -/
theorem ka_closed_after (p : String) (t0 t : Nat) (h : t0 + 51000 ≤ t) :
    advanceTo ⟨p, true⟩ 3 (kaInit t0) t
      = { now := t, kaTimer := none, dcTimer := none,
          pings := [(t0 + 50000, p)], pingPending := true,
          closed := some (3001, "No response to keepalive request") } := by
  have ha : t0 + 50000 ≤ t := by omega
  have e : t0 + 50000 + 1000 = t0 + 51000 := by omega
  simp [advanceTo, kaInit, resetKA, dueAt, fireKaTimer, fireDcTimer, ha, e, h]

/-! ### Claim C7 -/

/-- Claim C7 (counterexample): a 404 response to the ping arrives 0.5 s
after it; no 2xx response ever arrives within 1 s of the ping, yet at
51 s the connection is NOT closed — the non-2xx frame fired the
keep-alive message listener, cancelling the disconnect timer —
contrary to the claim that missing a 2xx closes with 3001. -/
theorem keepalive_non2xx_no_close_counterexample :
    (advanceTo ⟨"/v1/keepalive", true⟩ 3
        (kaOnFrame (advanceTo ⟨"/v1/keepalive", true⟩ 3 (kaInit 0) 50500)
          50500 (some 404))
        51000).closed = none
    ∧ (advanceTo ⟨"/v1/keepalive", true⟩ 3 (kaInit 0) 50500).pings
        = [(50000, "/v1/keepalive")] := by
  constructor <;> rfl

/-- Claim C7 (amended): with keepalive enabled and disconnect true,
after 50 s with no inbound frame exactly one GET to the configured path
has been sent and the connection is still open; if no inbound frame at
all arrives within 1 s of that ping, the transport is closed with code
3001 and reason "No response to keepalive request"; a 2xx response
within that second cancels the disconnect timer and re-arms the 50 s
ping timer, and the close does not happen. -/
theorem keepalive_timeout_behavior (p : String) (t0 : Nat) :
    ((advanceTo ⟨p, true⟩ 3 (kaInit t0) (t0 + 50999)).pings = [(t0 + 50000, p)]
      ∧ (advanceTo ⟨p, true⟩ 3 (kaInit t0) (t0 + 50999)).closed = none)
    ∧ (advanceTo ⟨p, true⟩ 3 (kaInit t0) (t0 + 51000)).closed
        = some (3001, "No response to keepalive request")
    ∧ (advanceTo ⟨p, true⟩ 3 (kaInit t0) (t0 + 51000)).pings = [(t0 + 50000, p)]
    ∧ (∀ d st, d < 1000 → 200 ≤ st → st < 300 →
        (kaOnFrame (advanceTo ⟨p, true⟩ 3 (kaInit t0) (t0 + 50000 + d))
            (t0 + 50000 + d) (some st)).dcTimer = none
        ∧ (kaOnFrame (advanceTo ⟨p, true⟩ 3 (kaInit t0) (t0 + 50000 + d))
            (t0 + 50000 + d) (some st)).kaTimer = some (t0 + 50000 + d + 50000)
        ∧ (advanceTo ⟨p, true⟩ 3
            (kaOnFrame (advanceTo ⟨p, true⟩ 3 (kaInit t0) (t0 + 50000 + d))
              (t0 + 50000 + d) (some st))
            (t0 + 51000)).closed = none) := by
  refine ⟨⟨?_, ?_⟩, ?_, ?_, ?_⟩
  · rw [ka_after_ping p t0 (t0 + 50999) (by omega) (by omega)]
  · rw [ka_after_ping p t0 (t0 + 50999) (by omega) (by omega)]
  · rw [ka_closed_after p t0 (t0 + 51000) (by omega)]
  · rw [ka_closed_after p t0 (t0 + 51000) (by omega)]
  · intro d st hd h1 h2
    rw [ka_after_ping p t0 (t0 + 50000 + d) (by omega) (by omega)]
    have hcond : 200 ≤ st ∧ st < 300 := ⟨h1, h2⟩
    refine ⟨?_, ?_, ?_⟩
    · simp [kaOnFrame, kaResponseCallback, resetKA, hcond]
    · simp [kaOnFrame, kaResponseCallback, resetKA, hcond]
    · have hc : ¬ (t0 + 50000 + d + 50000 ≤ t0 + 51000) := by omega
      simp [kaOnFrame, kaResponseCallback, resetKA, hcond, advanceTo, dueAt, hc]

/-- Claim C7 (witness for the amended statement). -/
theorem keepalive_timeout_behavior_witness :
    (advanceTo ⟨"/v1/keepalive", true⟩ 3 (kaInit 0) (0 + 51000)).closed
      = some (3001, "No response to keepalive request")
    ∧ (kaOnFrame (advanceTo ⟨"/v1/keepalive", true⟩ 3 (kaInit 0) (0 + 50000 + 500))
        (0 + 50000 + 500) (some 204)).dcTimer = none :=
  ⟨(keepalive_timeout_behavior "/v1/keepalive" 0).2.1,
   ((keepalive_timeout_behavior "/v1/keepalive" 0).2.2.2 500 204
      (by omega) (by omega) (by omega)).1⟩

/-! ### Claim C10 -/

/-- Claim C10 (counterexample): a 500 response to the ping 0.2 s after
it cancels the disconnect timer and no close at 3001 follows —
contrary to the claim that a non-2xx response leaves the disconnect
timer armed and the connection closes one second after the ping. -/
theorem keepalive_non2xx_timer_cancelled_counterexample :
    (kaOnFrame (advanceTo ⟨"/v1/keepalive", true⟩ 3 (kaInit 0) 50200)
        50200 (some 500)).dcTimer = none
    ∧ (advanceTo ⟨"/v1/keepalive", true⟩ 3
        (kaOnFrame (advanceTo ⟨"/v1/keepalive", true⟩ 3 (kaInit 0) 50200)
          50200 (some 500))
        51000).closed = none := by
  constructor <;> rfl

/-- Claim C10 (amended): a response with status outside [200,300)
invokes no request callback — the ping registers a success callback
only, so the response dispatch merely removes the pending entry — but
its arrival as an inbound frame still fires the keep-alive message
listener, which cancels the disconnect timer and re-arms the 50 s ping
timer; the connection is consequently NOT closed with 3001 one second
after the ping. -/
theorem keepalive_non2xx_resets (p : String) (t0 d st : Nat)
    (hd : d < 1000) (hst : ¬ (200 ≤ st ∧ st < 300)) :
    kaResponseCallback (advanceTo ⟨p, true⟩ 3 (kaInit t0) (t0 + 50000 + d))
        (t0 + 50000 + d) st
      = { advanceTo ⟨p, true⟩ 3 (kaInit t0) (t0 + 50000 + d) with
          pingPending := false }
    ∧ (kaOnFrame (advanceTo ⟨p, true⟩ 3 (kaInit t0) (t0 + 50000 + d))
        (t0 + 50000 + d) (some st)).dcTimer = none
    ∧ (kaOnFrame (advanceTo ⟨p, true⟩ 3 (kaInit t0) (t0 + 50000 + d))
        (t0 + 50000 + d) (some st)).kaTimer = some (t0 + 50000 + d + 50000)
    ∧ (advanceTo ⟨p, true⟩ 3
        (kaOnFrame (advanceTo ⟨p, true⟩ 3 (kaInit t0) (t0 + 50000 + d))
          (t0 + 50000 + d) (some st))
        (t0 + 51000)).closed = none := by
  rw [ka_after_ping p t0 (t0 + 50000 + d) (by omega) (by omega)]
  refine ⟨?_, ?_, ?_, ?_⟩
  · simp [kaResponseCallback, hst]
  · simp [kaOnFrame, kaResponseCallback, resetKA, hst]
  · simp [kaOnFrame, kaResponseCallback, resetKA, hst]
  · have hc : ¬ (t0 + 50000 + d + 50000 ≤ t0 + 51000) := by omega
    simp [kaOnFrame, kaResponseCallback, resetKA, hst, advanceTo, dueAt, hc]

/-- Claim C10 (witness for the amended statement). -/
theorem keepalive_non2xx_resets_witness :
    (kaOnFrame (advanceTo ⟨"/v1/keepalive", true⟩ 3 (kaInit 0) (0 + 50000 + 300))
        (0 + 50000 + 300) (some 404)).dcTimer = none :=
  (keepalive_non2xx_resets "/v1/keepalive" 0 300 404 (by omega) (by decide)).2.1

end LibRelay
